import Mathlib

/-!
Verification development for the checkout subsystem of isomorphic-git
(`src/commands/checkout.js` and `currentBranch.js`).

The JavaScript is embedded shallowly:
- a walker entry (`WalkerEntry`) becomes a structure whose fields hold the
  values that the lazy `populateStat` / `populateHash` / `populateContent`
  calls would produce (absent fields are `none`, matching JS `undefined`;
  JS `===` on possibly-undefined strings is `Option.decEq`);
- the classification callback of the first `walkBeta1` call becomes the pure
  function `checkoutMap`;
- the imperative apply phase becomes a function from the queued operations to
  a list of `Effect`s (the observable filesystem / index / lock actions), in
  the exact order the code performs them;
- the materialization callback of the second `walkBeta1` call becomes
  `materializeMap`.
The synchronized walker itself (`walkBeta1`, not part of these sources) is
abstracted as the list of entry tuples it presents to the callback.
-/

namespace Checkout

/-- A walker entry as seen by the `map` callbacks of `walkBeta1`.
`exists_` mirrors `entry.exists`; `type`, `mode`, `oid`, `content` hold the
values available after the corresponding `populate*` call, with `none` for
JS `undefined` (e.g. every field of a non-existent entry).  For a TREE-walker
blob, `content` is the blob's bytes as provided by the walker adapter, which
reads them from the object store. -/
structure Entry where
  fullpath : String
  exists_ : Bool
  type : Option String
  mode : Option String
  oid : Option String
  content : Option String
deriving DecidableEq, Repr

/-- A queued intent, as pushed onto `operations` by the classification walk:
`{op: 'unlink', filepath}` or `{op: 'write', filepath, oid, mode}`. -/
inductive Op where
  | unlink (filepath : String)
  | write (filepath : String) (oid : Option String) (mode : Option String)
deriving DecidableEq, Repr

/-- The `GitError` values relevant to checkout, keyed by their `E` code. -/
inductive GErr where
  | internalFail (message : String)
  | objectTypeAssertionInTreeFail (otype : Option String) (oid : Option String)
      (entrypath : String)
  | readObjectFail (oid : String)
  | commitNotFetchedError (ref : String) (oid : String)
  | other (code : String) (oid : Option String)
deriving DecidableEq, Repr

/-- The `err.code` string of a `GitError` (field `code` of `E`). -/
def GErr.code : GErr → String
  | .internalFail _ => "InternalFail"
  | .objectTypeAssertionInTreeFail _ _ _ => "ObjectTypeAssertionInTreeFail"
  | .readObjectFail _ => "ReadObjectFail"
  | .commitNotFetchedError _ _ => "CommitNotFetchedError"
  | .other c _ => c

/-- The `err.data.oid` field of a `GitError` (`none` when absent). -/
def GErr.dataOid : GErr → Option String
  | .internalFail _ => none
  | .objectTypeAssertionInTreeFail _ o _ => o
  | .readObjectFail o => some o
  | .commitNotFetchedError _ o => some o
  | .other _ o => o

/-- What one invocation of the classification callback does: nothing, push
one operation onto `operations`, or push one error onto `errors`. -/
inductive MapOutcome where
  | noop
  | pushOp (op : Op)
  | pushError (e : GErr)
deriving DecidableEq, Repr

/-- The classification callback of the first `walkBeta1` call
(checkout.js lines 87-185), as a pure function of the four entries
`[workdir, stage, head, next]`.  The `stage` entry is accepted but never
consulted, exactly as in the source.  The `console.log` of the submodule
case is not an error nor an operation, so it maps to `noop`. -/
def checkoutMap (ref : String) (workdir _stage head next : Entry) : MapOutcome :=
  if workdir.fullpath = "." then .noop
  else if !head.exists_ && !next.exists_ then
    -- Case: file is untracked
    .noop
  else if next.type = some "tree" then
    -- For now, just ignore directories
    .noop
  else if next.type = some "commit" then
    -- For now, just skip over submodules (logged, not recorded)
    .noop
  else if head.exists_ && !next.exists_ then
    -- Case: file got deleted
    if !workdir.exists_ then .noop
    else if workdir.oid = head.oid then
      .pushOp (.unlink workdir.fullpath)
    else
      .pushError (.internalFail
        ("Your file " ++ workdir.fullpath ++
         " has local changes but has been deleted in " ++ ref ++
         ". Commit or stash your changes before checking out " ++ ref ++ "."))
  else if !head.exists_ && next.exists_ then
    -- Case: file got added
    if !workdir.exists_ then
      .pushOp (.write workdir.fullpath next.oid next.mode)
    else if workdir.oid = next.oid then .noop
    else
      .pushError (.internalFail
        ("You added file " ++ workdir.fullpath ++
         " but a different file with the same name was added in " ++ ref ++
         ". Commit or stash your changes before checking out " ++ ref ++ "."))
  else
    -- Case: file continues to exist (head.exists && next.exists)
    if head.oid = next.oid then .noop
    else if workdir.oid = next.oid then .noop
    else if workdir.oid = head.oid then
      .pushOp (.write workdir.fullpath next.oid next.mode)
    else
      .pushError (.internalFail
        ("Your file " ++ workdir.fullpath ++
         " has local changes but has been changed in " ++ ref ++
         ". Commit or stash your changes before checking out " ++ ref ++ "."))

/-- The four classification outcomes at the granularity of the spec's
decision table. -/
inductive Decision where
  | nothing
  | unlinkFile
  | writeFile
  | conflict
deriving DecidableEq, Repr

/-- Collapse a `MapOutcome` to the spec table's granularity. -/
def decisionOf : MapOutcome → Decision
  | .noop => .nothing
  | .pushOp (.unlink _) => .unlinkFile
  | .pushOp (.write _ _ _) => .writeFile
  | .pushError _ => .conflict

/-- The spec's classification table (spec section 4.5 and claim C1), written
from the spec's words: rows over head presence, next presence, and the
workdir hash.  "The workdir hash equals X" presupposes a present workdir
file; a row whose workdir column is exhausted by hash comparisons treats an
absent workdir as matching neither oid. -/
def specDecision (workdir head next : Entry) : Decision :=
  if !head.exists_ && !next.exists_ then .nothing
  else if head.exists_ && !next.exists_ then
    if !workdir.exists_ then .nothing
    else if workdir.oid = head.oid then .unlinkFile
    else .conflict
  else if !head.exists_ && next.exists_ then
    if !workdir.exists_ then .writeFile
    else if workdir.oid = next.oid then .nothing
    else .conflict
  else
    if head.oid = next.oid || workdir.oid = next.oid then .nothing
    else if workdir.oid = head.oid then .writeFile
    else .conflict

/-- The classification walk: fold `checkoutMap` over the entry tuples the
synchronized walker presents, accumulating `operations` and `errors` in
visit order. -/
def classify (ref : String) (entries : List (Entry × Entry × Entry × Entry)) :
    List Op × List GErr :=
  entries.foldl
    (fun acc e =>
      match checkoutMap ref e.1 e.2.1 e.2.2.1 e.2.2.2 with
      | .noop => acc
      | .pushOp o => (acc.1 ++ [o], acc.2)
      | .pushError g => (acc.1, acc.2 ++ [g]))
    ([], [])

/-- An observable action of checkout on the filesystem, the config store,
the staging index, or the index lock, in the order performed. -/
inductive Effect where
  | configSet (key : String) (value : String)
  | refWrite (path : String) (content : String)
  | rm (path : String)
  | applyWrite (filepath : String) (oid : Option String) (mode : Option String)
  | mkdir (path : String)
  | fileWrite (path : String) (content : String)
  | fileWriteExec (path : String) (content : String)
  | symlink (path : String) (content : String)
  | logNotImplemented (thing : String)
  | indexClear
  | indexInsert (filepath : String) (statMode : Nat) (oid : String)
  | headWrite (path : String) (content : String)
  | lockAcquire (path : String)
  | lockRelease (path : String)
deriving DecidableEq, Repr

/-- The overall outcome of a checkout call: ran to completion, returned the
accumulated conflict list, or threw an error. -/
inductive CheckoutResult where
  | completed
  | conflicts (errs : List GErr)
  | threw (e : GErr)
deriving DecidableEq, Repr

/-- One `try { await fs.rm(p) } catch (err) {}` per path: the removal effect
is recorded when `rm` succeeds (`rmOk p = true`), a failure is swallowed by
the empty catch, and in either case the loop moves on. -/
def rmAttempts (rmOk : String → Bool) (paths : List String) : List Effect :=
  paths.filterMap fun p => if rmOk p then some (.rm p) else none

/-- The filepaths of the queued `unlink` operations, in queue order. -/
def unlinkPaths (ops : List Op) : List String :=
  ops.filterMap fun o =>
    match o with
    | .unlink fp => some fp
    | .write _ _ _ => none

/-- The apply effects of the queued `write` operations, in queue order.  The
body of the write loop is elided in the source (the file breaks off inside
its mode switch), so one write is modelled as a single atomic effect carrying
the queued oid and mode. -/
def writeApplies (ops : List Op) : List Effect :=
  ops.filterMap fun o =>
    match o with
    | .unlink _ => none
    | .write fp oid mode => some (.applyWrite fp oid mode)

/-- Result of one materialization-callback invocation: the effects performed,
or the error thrown. -/
inductive MatOutcome where
  | ok (effects : List Effect)
  | fail (e : GErr)
deriving DecidableEq, Repr

/-- The callback of the second `walkBeta1` call over `[TREE(ref), WORKDIR]`
(checkout.js lines 246-307), as a pure function of the `[head, workdir]`
entries.  `statOf p` models the mode of `fs.lstat(p)` after the write; for a
`100755` blob the code overwrites that mode with `0o755` (= 493) before
inserting, because the lstat executable bit is untrusted on Windows. -/
def materializeMap (statOf : String → Nat) (dir : String)
    (head workdir : Entry) : MatOutcome :=
  if head.fullpath = "." then .ok []
  else if !head.exists_ then .ok []
  else
    let filepath := dir ++ "/" ++ head.fullpath
    if head.type = some "tree" then
      .ok (if !workdir.exists_ then [.mkdir filepath] else [])
    else if head.type = some "commit" then
      .ok [.logNotImplemented "submodule support"]
    else if head.type = some "blob" then
      let content := head.content.getD ""
      let oid := head.oid.getD ""
      if head.mode = some "100644" then
        .ok [.fileWrite filepath content,
             .indexInsert head.fullpath (statOf filepath) oid]
      else if head.mode = some "100755" then
        .ok [.fileWriteExec filepath content,
             .indexInsert head.fullpath 493 oid]
      else if head.mode = some "120000" then
        .ok [.symlink filepath content,
             .indexInsert head.fullpath (statOf filepath) oid]
      else
        .fail (.internalFail
          ("Invalid mode " ++ head.mode.getD "undefined" ++
           " detected in blob " ++ oid))
    else
      .fail (.objectTypeAssertionInTreeFail head.type head.oid head.fullpath)

/-- The materialization walk: run `materializeMap` over the entry pairs in
walk order, concatenating effects, stopping at the first thrown error. -/
def matWalk (statOf : String → Nat) (dir : String) :
    List (Entry × Entry) → List Effect × Option GErr
  | [] => ([], none)
  | (h, w) :: rest =>
    match materializeMap statOf dir h w with
    | .ok es =>
      let r := matWalk statOf dir rest
      (es ++ r.1, r.2)
    | .fail e => ([], some e)

/-- The catch around the materialization walk (checkout.js lines 309-316):
an error whose code is `ReadObjectFail` and whose `data.oid` is exactly the
resolved checkout target oid is replaced by `CommitNotFetchedError`; every
other error is rethrown unchanged. -/
def relabelCommitNotFetched (ref targetOid : String) (e : GErr) : GErr :=
  if e.code = "ReadObjectFail" ∧ e.dataOid = some targetOid then
    .commitNotFetchedError ref targetOid
  else e

/-- The body of `GitIndexManager.acquire` during checkout (lines 201-319):
the unlink loop, the write loop, the removal of every old index entry, the
index clear, the materialization walk (with its error relabeling), and on
success the HEAD rewrite.  Returns the effects performed and the error
thrown, if any. -/
def applyPhase (rmOk : String → Bool) (statOf : String → Nat)
    (dir gitdir fullRef ref targetOid : String) (ops : List Op)
    (oldIndexPaths : List String) (matEntries : List (Entry × Entry)) :
    List Effect × Option GErr :=
  let dels := rmAttempts rmOk ((unlinkPaths ops).map fun fp => dir ++ "/" ++ fp)
  let wrs := writeApplies ops
  let oldRms := rmAttempts rmOk (oldIndexPaths.map fun p => dir ++ "/" ++ p)
  let m := matWalk statOf dir matEntries
  match m.2 with
  | some e =>
    (dels ++ wrs ++ oldRms ++ [.indexClear] ++ m.1,
     some (relabelCommitNotFetched ref targetOid e))
  | none =>
    (dels ++ wrs ++ oldRms ++ [.indexClear] ++ m.1
       ++ [.headWrite (gitdir ++ "/HEAD") ("ref: " ++ fullRef)],
     none)

/-- The whole `checkout` call, as the list of effects it performs and its
result.  `resolve` abstracts `GitRefManager.resolve` over the current ref
store; `classEntries` and `matEntries` abstract the entry tuples the two
`walkBeta1` calls present to their callbacks; `oldIndexPaths` is the path
list of the staging index when the lock is taken; `fullRef` is the value of
`GitRefManager.expand` for `ref`.  When `ref` does not resolve but
`remote/ref` does, the code first sets the two tracking-branch config keys
and writes the new loose ref (lines 44-68); classification then runs, and a
non-empty error list returns before the index lock is touched (lines
192-194); otherwise the apply phase runs between lock acquisition and
release, which `GitIndexManager.acquire` guarantees on every exit path. -/
def checkoutModel (resolve : String → Option String) (rmOk : String → Bool)
    (statOf : String → Nat) (remote ref dir gitdir fullRef : String)
    (classEntries : List (Entry × Entry × Entry × Entry))
    (oldIndexPaths : List String) (matEntries : List (Entry × Entry)) :
    List Effect × CheckoutResult :=
  let resolved : Option (String × List Effect) :=
    match resolve ref with
    | some oid => some (oid, [])
    | none =>
      match resolve (remote ++ "/" ++ ref) with
      | some oid =>
        some (oid,
          [.configSet ("branch." ++ ref ++ ".remote") remote,
           .configSet ("branch." ++ ref ++ ".merge") ("refs/heads/" ++ ref),
           .refWrite (gitdir ++ "/refs/heads/" ++ ref) (oid ++ "\n")])
      | none => none
  match resolved with
  | none => ([], .threw (.other "ResolveRefError" none))
  | some (oid, pre) =>
    let c := classify ref classEntries
    if c.2.isEmpty then
      let a := applyPhase rmOk statOf dir gitdir fullRef ref oid c.1
        oldIndexPaths matEntries
      match a.2 with
      | none =>
        (pre ++ [.lockAcquire (gitdir ++ "/index")] ++ a.1
           ++ [.lockRelease (gitdir ++ "/index")], .completed)
      | some e =>
        (pre ++ [.lockAcquire (gitdir ++ "/index")] ++ a.1
           ++ [.lockRelease (gitdir ++ "/index")], .threw e)
    else (pre, .conflicts c.2)

/-- C1: For every path visited during the classification walk (one whose
`next` entry is an ordinary file entry, not the skipped directory/submodule
kinds, and not the walk root `.`), the checkout reconciler decides exactly
per the spec table over head (old tree), next (new tree), and workdir:
absent/absent queues nothing; present/absent unlinks on a matching workdir
hash and conflicts on a differing one; absent/present writes when workdir is
absent, does nothing when the workdir hash equals next's oid, and conflicts
otherwise; present/present does nothing when head's oid equals next's oid or
the workdir hash equals next's oid, writes when the workdir hash equals
head's oid, and conflicts otherwise. -/
theorem classification_matches_spec_table (ref : String) (w s h n : Entry)
    (hdot : w.fullpath ≠ ".")
    (hnt : n.type ≠ some "tree") (hnc : n.type ≠ some "commit") :
    decisionOf (checkoutMap ref w s h n) = specDecision w h n := by
  unfold checkoutMap specDecision
  split_ifs <;> simp_all [decisionOf]

/-- Witness for C1: a path whose workdir content matches head while the new
tree changed it is classified `writeFile` by both the code and the table. -/
theorem classification_matches_spec_table_witness :
    decisionOf (checkoutMap "main"
        ⟨"a.txt", true, some "blob", some "100644", some "aaaa", none⟩
        ⟨"a.txt", true, some "blob", some "100644", some "aaaa", none⟩
        ⟨"a.txt", true, some "blob", some "100644", some "aaaa", none⟩
        ⟨"a.txt", true, some "blob", some "100644", some "bbbb", none⟩) =
      specDecision
        ⟨"a.txt", true, some "blob", some "100644", some "aaaa", none⟩
        ⟨"a.txt", true, some "blob", some "100644", some "aaaa", none⟩
        ⟨"a.txt", true, some "blob", some "100644", some "bbbb", none⟩ :=
  classification_matches_spec_table "main" _ _ _ _ (by decide) (by decide)
    (by decide)

/-- Discriminator: did checkout return a conflict list? -/
def CheckoutResult.isConflicts : CheckoutResult → Bool
  | .conflicts _ => true
  | _ => false

/-- Effects of the pre-classification tracking-branch setup (config writes
and the new loose ref): the only effects that can precede classification. -/
def isPreEffect : Effect → Bool
  | .configSet _ _ => true
  | .refWrite _ _ => true
  | _ => false

/-- Counterexample to C2 as stated: a checkout that creates a remote
tracking branch performs filesystem writes (the new loose ref, among the
tracking-branch setup) before classification, so a conflicting checkout is
not always free of filesystem writes: here the result is a conflict list,
yet the loose ref `git/refs/heads/topic` was written. -/
theorem conflicts_no_write_counterexample :
    ((checkoutModel
        (fun s => if s = "origin/topic" then some "abc123" else none)
        (fun _ => true) (fun _ => 420) "origin" "topic" "wd" "git"
        "refs/heads/topic"
        [(⟨"a.txt", true, some "blob", some "100644", some "1111", none⟩,
          ⟨"a.txt", true, some "blob", some "100644", some "2222", none⟩,
          ⟨"a.txt", true, some "blob", some "100644", some "2222", none⟩,
          ⟨"a.txt", true, some "blob", some "100644", some "3333", none⟩)]
        [] []).2.isConflicts = true)
    ∧ Effect.refWrite "git/refs/heads/topic" "abc123\n" ∈
        (checkoutModel
          (fun s => if s = "origin/topic" then some "abc123" else none)
          (fun _ => true) (fun _ => 420) "origin" "topic" "wd" "git"
          "refs/heads/topic"
          [(⟨"a.txt", true, some "blob", some "100644", some "1111", none⟩,
            ⟨"a.txt", true, some "blob", some "100644", some "2222", none⟩,
            ⟨"a.txt", true, some "blob", some "100644", some "2222", none⟩,
            ⟨"a.txt", true, some "blob", some "100644", some "3333", none⟩)]
          [] []).1 := by
  decide

/-- C2 amended: a checkout whose classification walk records at least one
conflict throws nothing for those conflicts and returns the full accumulated
list; the index lock is never acquired and no working-directory write or
deletion, index mutation, or HEAD update is performed.  When the ref
resolves locally no effect at all has happened; when checkout had to create
a remote tracking branch, the only effects are the pre-classification
tracking-branch setup writes (the two config keys and the new loose ref). -/
theorem conflicts_return_all_without_mutation
    (resolve : String → Option String) (rmOk : String → Bool)
    (statOf : String → Nat) (remote ref dir gitdir fullRef : String)
    (classEntries : List (Entry × Entry × Entry × Entry))
    (oldIndexPaths : List String) (matEntries : List (Entry × Entry))
    (hconf : (classify ref classEntries).2 ≠ [])
    (hres : resolve ref ≠ none ∨ resolve (remote ++ "/" ++ ref) ≠ none) :
    ((checkoutModel resolve rmOk statOf remote ref dir gitdir fullRef
        classEntries oldIndexPaths matEntries).2 =
      .conflicts (classify ref classEntries).2)
    ∧ (∀ e ∈ (checkoutModel resolve rmOk statOf remote ref dir gitdir fullRef
          classEntries oldIndexPaths matEntries).1, isPreEffect e = true)
    ∧ (resolve ref ≠ none →
        (checkoutModel resolve rmOk statOf remote ref dir gitdir fullRef
          classEntries oldIndexPaths matEntries).1 = []) := by
  have hempty : (classify ref classEntries).2.isEmpty = false := by
    simpa [List.isEmpty_iff] using hconf
  unfold checkoutModel
  cases hr : resolve ref with
  | some oid => simp [hr, hempty]
  | none =>
    cases hrr : resolve (remote ++ "/" ++ ref) with
    | some oid => simp [hr, hrr, hempty, isPreEffect]
    | none => simp [hr, hrr] at hres

/-- Witness for C2 (amended): a locally resolvable checkout with one
conflicting path returns exactly that conflict list with an empty effect
trace. -/
theorem conflicts_return_all_without_mutation_witness :
    ((checkoutModel (fun _ => some "abc123") (fun _ => true) (fun _ => 420)
        "origin" "topic" "wd" "git" "refs/heads/topic"
        [(⟨"a.txt", true, some "blob", some "100644", some "1111", none⟩,
          ⟨"a.txt", true, some "blob", some "100644", some "2222", none⟩,
          ⟨"a.txt", true, some "blob", some "100644", some "2222", none⟩,
          ⟨"a.txt", true, some "blob", some "100644", some "3333", none⟩)]
        [] []).2 =
      .conflicts (classify "topic"
        [(⟨"a.txt", true, some "blob", some "100644", some "1111", none⟩,
          ⟨"a.txt", true, some "blob", some "100644", some "2222", none⟩,
          ⟨"a.txt", true, some "blob", some "100644", some "2222", none⟩,
          ⟨"a.txt", true, some "blob", some "100644", some "3333", none⟩)]).2)
    ∧ (∀ e ∈ (checkoutModel (fun _ => some "abc123") (fun _ => true)
          (fun _ => 420) "origin" "topic" "wd" "git" "refs/heads/topic"
          [(⟨"a.txt", true, some "blob", some "100644", some "1111", none⟩,
            ⟨"a.txt", true, some "blob", some "100644", some "2222", none⟩,
            ⟨"a.txt", true, some "blob", some "100644", some "2222", none⟩,
            ⟨"a.txt", true, some "blob", some "100644", some "3333", none⟩)]
          [] []).1, isPreEffect e = true)
    ∧ ((fun (_ : String) => some "abc123") "topic" ≠ none →
        (checkoutModel (fun _ => some "abc123") (fun _ => true) (fun _ => 420)
          "origin" "topic" "wd" "git" "refs/heads/topic"
          [(⟨"a.txt", true, some "blob", some "100644", some "1111", none⟩,
            ⟨"a.txt", true, some "blob", some "100644", some "2222", none⟩,
            ⟨"a.txt", true, some "blob", some "100644", some "2222", none⟩,
            ⟨"a.txt", true, some "blob", some "100644", some "3333", none⟩)]
          [] []).1 = []) :=
  conflicts_return_all_without_mutation (fun _ => some "abc123")
    (fun _ => true) (fun _ => 420) "origin" "topic" "wd" "git"
    "refs/heads/topic" _ [] [] (by decide) (Or.inl (by decide))

/-- C3: For every path present in head and absent in next, a deletion is
queued exactly when the working-directory file exists with content hash equal
to head's oid; a workdir file with a differing hash yields a conflict (so the
path is never silently deleted); an absent workdir file queues nothing. -/
theorem delete_only_when_unmodified (ref : String) (w s h n : Entry)
    (hdot : w.fullpath ≠ ".") (hh : h.exists_ = true) (hn : n.exists_ = false)
    (hnt : n.type ≠ some "tree") (hnc : n.type ≠ some "commit") :
    (checkoutMap ref w s h n = .pushOp (.unlink w.fullpath) ↔
      (w.exists_ = true ∧ w.oid = h.oid))
    ∧ (w.exists_ = true → w.oid ≠ h.oid →
        decisionOf (checkoutMap ref w s h n) = .conflict)
    ∧ (w.exists_ = false → checkoutMap ref w s h n = .noop) := by
  unfold checkoutMap
  simp only [hdot, hh, hn, hnt, hnc]
  cases hw : w.exists_ <;>
    by_cases hoid : w.oid = h.oid <;>
      simp_all [decisionOf]

/-- Witness for C3: a locally modified file deleted upstream conflicts and is
not unlinked. -/
theorem delete_only_when_unmodified_witness :
    (checkoutMap "main"
        ⟨"b.txt", true, some "blob", some "100644", some "1111", none⟩
        ⟨"b.txt", true, some "blob", some "100644", some "2222", none⟩
        ⟨"b.txt", true, some "blob", some "100644", some "2222", none⟩
        ⟨"b.txt", false, none, none, none, none⟩ =
      .pushOp (.unlink "b.txt") ↔
      ((true : Bool) = true ∧ (some "1111" : Option String) = some "2222"))
    ∧ ((true : Bool) = true → (some "1111" : Option String) ≠ some "2222" →
        decisionOf (checkoutMap "main"
          ⟨"b.txt", true, some "blob", some "100644", some "1111", none⟩
          ⟨"b.txt", true, some "blob", some "100644", some "2222", none⟩
          ⟨"b.txt", true, some "blob", some "100644", some "2222", none⟩
          ⟨"b.txt", false, none, none, none, none⟩) = .conflict)
    ∧ ((true : Bool) = false → checkoutMap "main"
        ⟨"b.txt", true, some "blob", some "100644", some "1111", none⟩
        ⟨"b.txt", true, some "blob", some "100644", some "2222", none⟩
        ⟨"b.txt", true, some "blob", some "100644", some "2222", none⟩
        ⟨"b.txt", false, none, none, none, none⟩ = .noop) :=
  delete_only_when_unmodified "main" _ _ _ _ (by decide) (by decide)
    (by decide) (by decide) (by decide)

/-- C4: With zero classification errors, the apply phase runs between index
lock acquisition and release; in its effect trace every queued `unlink`
removal precedes every queued `write` application, the staging index is then
cleared and rebuilt by the second synchronized walk's effects, and in that
walk each blob's mode is translated so that `100644` writes a regular file,
`100755` writes with executable permission, and `120000` writes a symlink,
writing the blob content the tree walker read from the object store and
inserting the entry into the index. -/
theorem apply_order_and_index_rebuild
    (resolve : String → Option String) (rmOk : String → Bool)
    (statOf : String → Nat) (remote ref dir gitdir fullRef oid : String)
    (classEntries : List (Entry × Entry × Entry × Entry))
    (oldIndexPaths : List String) (matEntries : List (Entry × Entry))
    (hres : resolve ref = some oid)
    (hnoerr : (classify ref classEntries).2 = []) :
    (∃ matTail,
      (checkoutModel resolve rmOk statOf remote ref dir gitdir fullRef
          classEntries oldIndexPaths matEntries).1 =
        Effect.lockAcquire (gitdir ++ "/index")
          :: (rmAttempts rmOk ((unlinkPaths (classify ref classEntries).1).map
                fun fp => dir ++ "/" ++ fp)
              ++ writeApplies (classify ref classEntries).1
              ++ rmAttempts rmOk (oldIndexPaths.map fun p => dir ++ "/" ++ p)
              ++ [Effect.indexClear]
              ++ (matWalk statOf dir matEntries).1
              ++ matTail
              ++ [Effect.lockRelease (gitdir ++ "/index")]))
    ∧ (∀ (h w : Entry) (c o : String),
        h.fullpath ≠ "." → h.exists_ = true → h.type = some "blob" →
        h.content = some c → h.oid = some o →
        ((h.mode = some "100644" →
            materializeMap statOf dir h w =
              .ok [.fileWrite (dir ++ "/" ++ h.fullpath) c,
                   .indexInsert h.fullpath (statOf (dir ++ "/" ++ h.fullpath)) o])
         ∧ (h.mode = some "100755" →
            materializeMap statOf dir h w =
              .ok [.fileWriteExec (dir ++ "/" ++ h.fullpath) c,
                   .indexInsert h.fullpath 493 o])
         ∧ (h.mode = some "120000" →
            materializeMap statOf dir h w =
              .ok [.symlink (dir ++ "/" ++ h.fullpath) c,
                   .indexInsert h.fullpath (statOf (dir ++ "/" ++ h.fullpath)) o]))) := by
  constructor
  · have hempty : (classify ref classEntries).2.isEmpty = true := by
      simp [hnoerr]
    unfold checkoutModel
    cases hm : (matWalk statOf dir matEntries).2 with
    | none =>
      exact ⟨[.headWrite (gitdir ++ "/HEAD") ("ref: " ++ fullRef)],
        by simp [hres, hempty, applyPhase, hm]⟩
    | some e =>
      exact ⟨[], by simp [hres, hempty, applyPhase, hm]⟩
  · intro h w c o hdot hex htype hcontent hoid
    refine ⟨?_, ?_, ?_⟩ <;> intro hmode <;>
      simp [materializeMap, hdot, hex, htype, hcontent, hoid, hmode]

/-- Witness for C4: a checkout with no queued operations, one stale index
entry and one new-tree blob produces the lock-bracketed trace. -/
theorem apply_order_and_index_rebuild_witness :
    (∃ matTail,
      (checkoutModel (fun _ => some "abcd") (fun _ => true) (fun _ => 420)
          "origin" "main" "wd" "git" "refs/heads/main" [] ["old.txt"]
          [(⟨"c.txt", true, some "blob", some "100644", some "eeee",
             some "hello"⟩, ⟨"c.txt", false, none, none, none, none⟩)]).1 =
        Effect.lockAcquire ("git" ++ "/index")
          :: (rmAttempts (fun _ => true)
                ((unlinkPaths (classify "main" []).1).map
                  fun fp => "wd" ++ "/" ++ fp)
              ++ writeApplies (classify "main" []).1
              ++ rmAttempts (fun _ => true)
                  (["old.txt"].map fun p => "wd" ++ "/" ++ p)
              ++ [Effect.indexClear]
              ++ (matWalk (fun _ => 420) "wd"
                  [(⟨"c.txt", true, some "blob", some "100644", some "eeee",
                     some "hello"⟩,
                    ⟨"c.txt", false, none, none, none, none⟩)]).1
              ++ matTail
              ++ [Effect.lockRelease ("git" ++ "/index")]))
    ∧ (∀ (h w : Entry) (c o : String),
        h.fullpath ≠ "." → h.exists_ = true → h.type = some "blob" →
        h.content = some c → h.oid = some o →
        ((h.mode = some "100644" →
            materializeMap (fun _ => 420) "wd" h w =
              .ok [.fileWrite ("wd" ++ "/" ++ h.fullpath) c,
                   .indexInsert h.fullpath 420 o])
         ∧ (h.mode = some "100755" →
            materializeMap (fun _ => 420) "wd" h w =
              .ok [.fileWriteExec ("wd" ++ "/" ++ h.fullpath) c,
                   .indexInsert h.fullpath 493 o])
         ∧ (h.mode = some "120000" →
            materializeMap (fun _ => 420) "wd" h w =
              .ok [.symlink ("wd" ++ "/" ++ h.fullpath) c,
                   .indexInsert h.fullpath 420 o]))) :=
  apply_order_and_index_rebuild (fun _ => some "abcd") (fun _ => true)
    (fun _ => 420) "origin" "main" "wd" "git" "refs/heads/main" "abcd" []
    ["old.txt"]
    [(⟨"c.txt", true, some "blob", some "100644", some "eeee", some "hello"⟩,
      ⟨"c.txt", false, none, none, none, none⟩)]
    rfl rfl

/-- C5: In the materialization walk over the new tree and the workdir, every
existing entry is handled by type: a `tree` entry creates the directory
exactly when it is absent in the workdir; a `blob` entry is written
according to its mode and inserted into the index with its post-write lstat
mode (with the executable bit pinned for `100755`) and its oid; a blob whose
mode is none of `100644`/`100755`/`120000` raises `InternalFail`; an entry
of any other unknown type raises the fatal object-type assertion error. -/
theorem materialization_by_type (statOf : String → Nat) (dir : String)
    (h w : Entry) (hdot : h.fullpath ≠ ".") (hex : h.exists_ = true) :
    (h.type = some "tree" →
      materializeMap statOf dir h w =
        .ok (if !w.exists_ then [.mkdir (dir ++ "/" ++ h.fullpath)] else []))
    ∧ (∀ c o, h.type = some "blob" → h.content = some c → h.oid = some o →
        ((h.mode = some "100644" →
            materializeMap statOf dir h w =
              .ok [.fileWrite (dir ++ "/" ++ h.fullpath) c,
                   .indexInsert h.fullpath (statOf (dir ++ "/" ++ h.fullpath)) o])
         ∧ (h.mode = some "100755" →
            materializeMap statOf dir h w =
              .ok [.fileWriteExec (dir ++ "/" ++ h.fullpath) c,
                   .indexInsert h.fullpath 493 o])
         ∧ (h.mode = some "120000" →
            materializeMap statOf dir h w =
              .ok [.symlink (dir ++ "/" ++ h.fullpath) c,
                   .indexInsert h.fullpath (statOf (dir ++ "/" ++ h.fullpath)) o])
         ∧ (h.mode ≠ some "100644" → h.mode ≠ some "100755" →
            h.mode ≠ some "120000" →
            ∃ msg, materializeMap statOf dir h w = .fail (.internalFail msg))))
    ∧ (h.type ≠ some "tree" → h.type ≠ some "commit" → h.type ≠ some "blob" →
        materializeMap statOf dir h w =
          .fail (.objectTypeAssertionInTreeFail h.type h.oid h.fullpath)) := by
  refine ⟨?_, ?_, ?_⟩
  · intro htype
    simp [materializeMap, hdot, hex, htype]
  · intro c o htype hcontent hoid
    refine ⟨?_, ?_, ?_, ?_⟩ <;> intro hmode <;>
      simp [materializeMap, hdot, hex, htype, hcontent, hoid, hmode]
    intro h755 h120
    exact ⟨"Invalid mode " ++ h.mode.getD "undefined" ++ " detected in blob "
        ++ o,
      by simp [materializeMap, hdot, hex, htype, hcontent, hoid, hmode, h755,
        h120]⟩
  · intro ht hc hb
    simp [materializeMap, hdot, hex, ht, hc, hb]

/-- Witness for C5: a blob with the unknown mode `040000` raises
`InternalFail`, and the other handlers compute as stated, at a concrete
entry. -/
theorem materialization_by_type_witness :
    ((⟨"d.txt", true, some "blob", some "040000", some "ffff", some "x"⟩ :
        Entry).type = some "tree" →
      materializeMap (fun _ => 420) "wd"
          ⟨"d.txt", true, some "blob", some "040000", some "ffff", some "x"⟩
          ⟨"d.txt", false, none, none, none, none⟩ =
        .ok (if !(⟨"d.txt", false, none, none, none, none⟩ : Entry).exists_
          then [.mkdir ("wd" ++ "/" ++ "d.txt")] else []))
    ∧ (∀ c o,
        (⟨"d.txt", true, some "blob", some "040000", some "ffff", some "x"⟩ :
          Entry).type = some "blob" →
        (⟨"d.txt", true, some "blob", some "040000", some "ffff", some "x"⟩ :
          Entry).content = some c →
        (⟨"d.txt", true, some "blob", some "040000", some "ffff", some "x"⟩ :
          Entry).oid = some o →
        (((⟨"d.txt", true, some "blob", some "040000", some "ffff", some "x"⟩ :
            Entry).mode = some "100644" →
            materializeMap (fun _ => 420) "wd"
                ⟨"d.txt", true, some "blob", some "040000", some "ffff",
                  some "x"⟩ ⟨"d.txt", false, none, none, none, none⟩ =
              .ok [.fileWrite ("wd" ++ "/" ++ "d.txt") c,
                   .indexInsert "d.txt" ((fun _ => 420) ("wd" ++ "/" ++ "d.txt")) o])
         ∧ ((⟨"d.txt", true, some "blob", some "040000", some "ffff", some "x"⟩ :
            Entry).mode = some "100755" →
            materializeMap (fun _ => 420) "wd"
                ⟨"d.txt", true, some "blob", some "040000", some "ffff",
                  some "x"⟩ ⟨"d.txt", false, none, none, none, none⟩ =
              .ok [.fileWriteExec ("wd" ++ "/" ++ "d.txt") c,
                   .indexInsert "d.txt" 493 o])
         ∧ ((⟨"d.txt", true, some "blob", some "040000", some "ffff", some "x"⟩ :
            Entry).mode = some "120000" →
            materializeMap (fun _ => 420) "wd"
                ⟨"d.txt", true, some "blob", some "040000", some "ffff",
                  some "x"⟩ ⟨"d.txt", false, none, none, none, none⟩ =
              .ok [.symlink ("wd" ++ "/" ++ "d.txt") c,
                   .indexInsert "d.txt" ((fun _ => 420) ("wd" ++ "/" ++ "d.txt")) o])
         ∧ ((⟨"d.txt", true, some "blob", some "040000", some "ffff", some "x"⟩ :
            Entry).mode ≠ some "100644" →
            (⟨"d.txt", true, some "blob", some "040000", some "ffff", some "x"⟩ :
            Entry).mode ≠ some "100755" →
            (⟨"d.txt", true, some "blob", some "040000", some "ffff", some "x"⟩ :
            Entry).mode ≠ some "120000" →
            ∃ msg, materializeMap (fun _ => 420) "wd"
                ⟨"d.txt", true, some "blob", some "040000", some "ffff",
                  some "x"⟩ ⟨"d.txt", false, none, none, none, none⟩ =
              .fail (.internalFail msg))))
    ∧ ((⟨"d.txt", true, some "blob", some "040000", some "ffff", some "x"⟩ :
          Entry).type ≠ some "tree" →
        (⟨"d.txt", true, some "blob", some "040000", some "ffff", some "x"⟩ :
          Entry).type ≠ some "commit" →
        (⟨"d.txt", true, some "blob", some "040000", some "ffff", some "x"⟩ :
          Entry).type ≠ some "blob" →
        materializeMap (fun _ => 420) "wd"
            ⟨"d.txt", true, some "blob", some "040000", some "ffff", some "x"⟩
            ⟨"d.txt", false, none, none, none, none⟩ =
          .fail (.objectTypeAssertionInTreeFail (some "blob") (some "ffff")
            "d.txt")) :=
  materialization_by_type (fun _ => 420) "wd"
    ⟨"d.txt", true, some "blob", some "040000", some "ffff", some "x"⟩
    ⟨"d.txt", false, none, none, none, none⟩ (by decide) rfl

/-- C6: A checkout of a ref that does not resolve locally but whose
`remote/ref` does resolve first sets `branch.<ref>.remote` to the remote
name and `branch.<ref>.merge` to `refs/heads/<ref>`, then writes the loose
ref file `<gitdir>/refs/heads/<ref>` containing the remote ref's oid
followed by a newline, before anything else it does. -/
theorem tracking_branch_setup
    (resolve : String → Option String) (rmOk : String → Bool)
    (statOf : String → Nat) (remote ref dir gitdir fullRef oid : String)
    (classEntries : List (Entry × Entry × Entry × Entry))
    (oldIndexPaths : List String) (matEntries : List (Entry × Entry))
    (hmiss : resolve ref = none)
    (hremote : resolve (remote ++ "/" ++ ref) = some oid) :
    ∃ rest,
      (checkoutModel resolve rmOk statOf remote ref dir gitdir fullRef
          classEntries oldIndexPaths matEntries).1 =
        [Effect.configSet ("branch." ++ ref ++ ".remote") remote,
         Effect.configSet ("branch." ++ ref ++ ".merge")
           ("refs/heads/" ++ ref),
         Effect.refWrite (gitdir ++ "/refs/heads/" ++ ref) (oid ++ "\n")]
          ++ rest := by
  unfold checkoutModel
  simp only [hmiss, hremote]
  cases hempty : (classify ref classEntries).2.isEmpty with
  | false => exact ⟨[], by simp [hempty]⟩
  | true =>
    cases hm : (applyPhase rmOk statOf dir gitdir fullRef ref oid
        (classify ref classEntries).1 oldIndexPaths matEntries).2 with
    | none =>
      refine ⟨Effect.lockAcquire (gitdir ++ "/index")
        :: (applyPhase rmOk statOf dir gitdir fullRef ref oid
              (classify ref classEntries).1 oldIndexPaths matEntries).1
        ++ [Effect.lockRelease (gitdir ++ "/index")], by simp [hempty, hm]⟩
    | some e =>
      refine ⟨Effect.lockAcquire (gitdir ++ "/index")
        :: (applyPhase rmOk statOf dir gitdir fullRef ref oid
              (classify ref classEntries).1 oldIndexPaths matEntries).1
        ++ [Effect.lockRelease (gitdir ++ "/index")], by simp [hempty, hm]⟩

/-- Witness for C6: checking out `feature` when only `origin/feature`
resolves emits the two config writes and the loose ref write first. -/
theorem tracking_branch_setup_witness :
    ∃ rest,
      (checkoutModel
          (fun s => if s = "origin/feature" then some "abcd" else none)
          (fun _ => true) (fun _ => 420) "origin" "feature" "wd" "git"
          "refs/heads/feature" [] [] []).1 =
        [Effect.configSet ("branch." ++ "feature" ++ ".remote") "origin",
         Effect.configSet ("branch." ++ "feature" ++ ".merge")
           ("refs/heads/" ++ "feature"),
         Effect.refWrite ("git" ++ "/refs/heads/" ++ "feature")
           ("abcd" ++ "\n")] ++ rest :=
  tracking_branch_setup
    (fun s => if s = "origin/feature" then some "abcd" else none)
    (fun _ => true) (fun _ => 420) "origin" "feature" "wd" "git"
    "refs/heads/feature" "abcd" [] [] [] (by decide) (by decide)

/-- C7: An error escaping the materialization walk is re-labeled
`CommitNotFetchedError` exactly when it is a `ReadObjectFail` whose
`data.oid` equals the resolved checkout target oid; an error with another
oid, or with another code, is propagated unchanged. -/
theorem read_failure_relabel (ref target : String) (e : GErr) :
    (e.code = "ReadObjectFail" →
      (relabelCommitNotFetched ref target e =
          .commitNotFetchedError ref target ↔ e.dataOid = some target))
    ∧ (e.dataOid ≠ some target → relabelCommitNotFetched ref target e = e)
    ∧ (e.code ≠ "ReadObjectFail" → relabelCommitNotFetched ref target e = e) := by
  refine ⟨?_, ?_, ?_⟩
  · intro hc
    constructor
    · intro hrel
      by_contra hd
      rw [relabelCommitNotFetched, if_neg (by tauto)] at hrel
      rw [hrel] at hd
      exact hd rfl
    · intro hd
      rw [relabelCommitNotFetched, if_pos ⟨hc, hd⟩]
  · intro hd
    rw [relabelCommitNotFetched, if_neg (by tauto)]
  · intro hc
    rw [relabelCommitNotFetched, if_neg (by tauto)]

/-- Witness for C7: a `ReadObjectFail` for the target oid is re-labeled; one
for a different oid is untouched. -/
theorem read_failure_relabel_witness :
    ((GErr.readObjectFail "abcd").code = "ReadObjectFail" →
      (relabelCommitNotFetched "main" "abcd" (.readObjectFail "abcd") =
          .commitNotFetchedError "main" "abcd" ↔
        (GErr.readObjectFail "abcd").dataOid = some "abcd"))
    ∧ ((GErr.readObjectFail "abcd").dataOid ≠ some "abcd" →
        relabelCommitNotFetched "main" "abcd" (.readObjectFail "abcd") =
          .readObjectFail "abcd")
    ∧ ((GErr.readObjectFail "abcd").code ≠ "ReadObjectFail" →
        relabelCommitNotFetched "main" "abcd" (.readObjectFail "abcd") =
          .readObjectFail "abcd") :=
  read_failure_relabel "main" "abcd" (.readObjectFail "abcd")

/-- Counterexample to C8 as stated: on a successful checkout of
`refs/heads/main` the HEAD file is written with content
`ref: refs/heads/main` and no effect ever writes the claimed
newline-terminated content `ref: refs/heads/main\n`. -/
theorem head_write_no_newline_counterexample :
    Effect.headWrite "git/HEAD" "ref: refs/heads/main" ∈
      (checkoutModel (fun _ => some "abcd") (fun _ => true) (fun _ => 420)
        "origin" "main" "wd" "git" "refs/heads/main" [] [] []).1
    ∧ Effect.headWrite "git/HEAD" "ref: refs/heads/main\n" ∉
      (checkoutModel (fun _ => some "abcd") (fun _ => true) (fun _ => 420)
        "origin" "main" "wd" "git" "refs/heads/main" [] [] []).1 := by
  decide

/-- C8 amended: after a successful checkout the HEAD loose ref file is
rewritten with content `ref: <full ref name>` — with no trailing newline —
and this write happens after the index rebuild, as the last step before the
index lock is released. -/
theorem head_rewrite_last_before_release
    (resolve : String → Option String) (rmOk : String → Bool)
    (statOf : String → Nat) (remote ref dir gitdir fullRef oid : String)
    (classEntries : List (Entry × Entry × Entry × Entry))
    (oldIndexPaths : List String) (matEntries : List (Entry × Entry))
    (hres : resolve ref = some oid)
    (hnoerr : (classify ref classEntries).2 = [])
    (hmat : (matWalk statOf dir matEntries).2 = none) :
    ((checkoutModel resolve rmOk statOf remote ref dir gitdir fullRef
        classEntries oldIndexPaths matEntries).2 = .completed)
    ∧ ((checkoutModel resolve rmOk statOf remote ref dir gitdir fullRef
        classEntries oldIndexPaths matEntries).1 =
      Effect.lockAcquire (gitdir ++ "/index")
        :: (rmAttempts rmOk ((unlinkPaths (classify ref classEntries).1).map
              fun fp => dir ++ "/" ++ fp)
            ++ writeApplies (classify ref classEntries).1
            ++ rmAttempts rmOk (oldIndexPaths.map fun p => dir ++ "/" ++ p)
            ++ [Effect.indexClear]
            ++ (matWalk statOf dir matEntries).1
            ++ [Effect.headWrite (gitdir ++ "/HEAD") ("ref: " ++ fullRef),
                Effect.lockRelease (gitdir ++ "/index")])) := by
  have hempty : (classify ref classEntries).2.isEmpty = true := by
    simp [hnoerr]
  constructor
  · unfold checkoutModel
    simp [hres, hempty, applyPhase, hmat]
  · unfold checkoutModel
    simp [hres, hempty, applyPhase, hmat]

/-- Witness for C8 (amended): a trivial successful checkout ends its trace
with the HEAD write followed only by the lock release. -/
theorem head_rewrite_last_before_release_witness :
    ((checkoutModel (fun _ => some "bcde") (fun _ => true) (fun _ => 420)
        "origin" "dev" "wd" "git" "refs/heads/dev" [] [] []).2 = .completed)
    ∧ ((checkoutModel (fun _ => some "bcde") (fun _ => true) (fun _ => 420)
        "origin" "dev" "wd" "git" "refs/heads/dev" [] [] []).1 =
      Effect.lockAcquire ("git" ++ "/index")
        :: (rmAttempts (fun _ => true)
              ((unlinkPaths (classify "dev" []).1).map
                fun fp => "wd" ++ "/" ++ fp)
            ++ writeApplies (classify "dev" []).1
            ++ rmAttempts (fun _ => true)
                (([] : List String).map fun p => "wd" ++ "/" ++ p)
            ++ [Effect.indexClear]
            ++ (matWalk (fun _ => 420) "wd" []).1
            ++ [Effect.headWrite ("git" ++ "/HEAD")
                  ("ref: " ++ "refs/heads/dev"),
                Effect.lockRelease ("git" ++ "/index")])) :=
  head_rewrite_last_before_release (fun _ => some "bcde") (fun _ => true)
    (fun _ => 420) "origin" "dev" "wd" "git" "refs/heads/dev" "bcde" [] [] []
    rfl rfl rfl

/-- Is an effect a file removal? -/
def isRmEffect : Effect → Bool
  | .rm _ => true
  | _ => false

/-- Removal-attempt effects are nothing but removals. -/
theorem rmAttempts_filter_not_rm (rmOk : String → Bool) (ps : List String) :
    (rmAttempts rmOk ps).filter (fun e => !isRmEffect e) = [] := by
  induction ps with
  | nil => rfl
  | cons p rest ih =>
    by_cases hp : rmOk p = true <;>
      simp [rmAttempts, hp, isRmEffect, List.filter] at ih ⊢ <;>
      simpa [rmAttempts] using ih

/-- A removal that succeeds leaves its effect, whatever happened to the
other paths. -/
theorem mem_rmAttempts (rmOk : String → Bool) (ps : List String) (p : String)
    (hp : p ∈ ps) (hok : rmOk p = true) : Effect.rm p ∈ rmAttempts rmOk ps := by
  simp only [rmAttempts, List.mem_filterMap]
  exact ⟨p, hp, by simp [hok]⟩

/-- C10: Every file-removal failure in the apply phase is silently
swallowed: whatever subset of `fs.rm` calls fails — over the queued
`unlink` operations or over the old staging-index entries being cleared —
the apply phase reports the same error outcome, performs exactly the same
non-removal effects in the same order, and still attempts every removal:
any unlink whose own `rm` succeeds leaves its effect regardless of the
other failures. -/
theorem rm_failures_swallowed (rmOk1 rmOk2 : String → Bool)
    (statOf : String → Nat) (dir gitdir fullRef ref targetOid : String)
    (ops : List Op) (oldIndexPaths : List String)
    (matEntries : List (Entry × Entry)) :
    ((applyPhase rmOk1 statOf dir gitdir fullRef ref targetOid ops
        oldIndexPaths matEntries).2 =
      (applyPhase rmOk2 statOf dir gitdir fullRef ref targetOid ops
        oldIndexPaths matEntries).2)
    ∧ ((applyPhase rmOk1 statOf dir gitdir fullRef ref targetOid ops
        oldIndexPaths matEntries).1.filter (fun e => !isRmEffect e) =
      (applyPhase rmOk2 statOf dir gitdir fullRef ref targetOid ops
        oldIndexPaths matEntries).1.filter (fun e => !isRmEffect e))
    ∧ (∀ fp ∈ unlinkPaths ops, rmOk1 (dir ++ "/" ++ fp) = true →
        Effect.rm (dir ++ "/" ++ fp) ∈
          (applyPhase rmOk1 statOf dir gitdir fullRef ref targetOid ops
            oldIndexPaths matEntries).1) := by
  refine ⟨?_, ?_, ?_⟩
  · cases hm : (matWalk statOf dir matEntries).2 <;>
      simp [applyPhase, hm]
  · cases hm : (matWalk statOf dir matEntries).2 <;>
      simp [applyPhase, hm, List.filter_append, rmAttempts_filter_not_rm]
  · intro fp hfp hok
    have hm : Effect.rm (dir ++ "/" ++ fp) ∈
        rmAttempts rmOk1 ((unlinkPaths ops).map fun q => dir ++ "/" ++ q) :=
      mem_rmAttempts rmOk1 _ _ (List.mem_map_of_mem _ hfp) hok
    cases hw : (matWalk statOf dir matEntries).2 <;>
      simp [applyPhase, hw] <;>
      exact Or.inl hm

/-- Witness for C10: with `rm` failing on the unlinked file `wd/gone.txt`
and succeeding elsewhere, the error outcome and the non-removal trace match
the all-successes run, and the removal of `wd/kept.txt` still happens. -/
theorem rm_failures_swallowed_witness :
    ((applyPhase (fun p => !(p == "wd/gone.txt")) (fun _ => 420) "wd" "git"
        "refs/heads/main" "main" "abcd" [.unlink "gone.txt", .unlink "kept.txt"]
        [] []).2 =
      (applyPhase (fun _ => true) (fun _ => 420) "wd" "git" "refs/heads/main"
        "main" "abcd" [.unlink "gone.txt", .unlink "kept.txt"] [] []).2)
    ∧ ((applyPhase (fun p => !(p == "wd/gone.txt")) (fun _ => 420) "wd" "git"
        "refs/heads/main" "main" "abcd" [.unlink "gone.txt", .unlink "kept.txt"]
        [] []).1.filter (fun e => !isRmEffect e) =
      (applyPhase (fun _ => true) (fun _ => 420) "wd" "git" "refs/heads/main"
        "main" "abcd" [.unlink "gone.txt", .unlink "kept.txt"]
        [] []).1.filter (fun e => !isRmEffect e))
    ∧ (∀ fp ∈ unlinkPaths [.unlink "gone.txt", .unlink "kept.txt"],
        (fun p => !(p == "wd/gone.txt")) ("wd" ++ "/" ++ fp) = true →
        Effect.rm ("wd" ++ "/" ++ fp) ∈
          (applyPhase (fun p => !(p == "wd/gone.txt")) (fun _ => 420) "wd"
            "git" "refs/heads/main" "main" "abcd"
            [.unlink "gone.txt", .unlink "kept.txt"] [] []).1) :=
  rm_failures_swallowed (fun p => !(p == "wd/gone.txt")) (fun _ => true)
    (fun _ => 420) "wd" "git" "refs/heads/main" "main" "abcd"
    [.unlink "gone.txt", .unlink "kept.txt"] [] []

/-- Does `s` start with `p`?  (Character-list level, mirroring JS
`String.prototype.startsWith`.) -/
def strStartsWith (s p : String) : Bool := p.data.isPrefixOf s.data

/-- Drop the first `n` characters of `s`, mirroring JS `slice(n)`. -/
def strDropChars (s : String) (n : Nat) : String := ⟨s.data.drop n⟩

/-- Is the string a complete 40-character lowercase hex object id? -/
def isHex40 (s : String) : Bool :=
  s.length == 40 && s.data.all fun c => c.isDigit || ('a' ≤ c && c ≤ 'f')

/-- Modelled from the spec: `GitRefManager.resolve` is missing from these
sources (only its callers are present).  Per section 4.2 resolution returns
a 40-hex ref as-is, follows `ref: <name>` symbolic indirection recursing
with depth - 1, and otherwise reads the ref store (loose file then
packed-refs, abstracted as `readRef`); an unknown ref fails.  Sections 6 and
8 require `currentBranch` — which calls resolve with `depth: 2` — to return
a ref NAME, so an exhausted depth budget yields the name reached so far
(section 4.2's `MaxDepthExceeded` cycle guard concerns unbounded resolution,
which these claims never exercise). -/
def resolveRef (readRef : String → Option String) :
    Nat → String → Except GErr String
  | 0, ref => .ok ref
  | d + 1, ref =>
    if strStartsWith ref "ref: " then
      resolveRef readRef d (strDropChars ref 5)
    else if isHex40 ref then .ok ref
    else
      match readRef ref with
      | some content => resolveRef readRef d content
      | none => .error (.other "ResolveRefError" none)

/-- Modelled from the spec: `GitRefManager.abbrev` is missing from these
sources.  Per section 4.2 it is the inverse of `expand`, stripping the
matching ref-namespace prefix in the fixed precedence order. -/
def abbrevRef (ref : String) : String :=
  if strStartsWith ref "refs/heads/" then strDropChars ref 11
  else if strStartsWith ref "refs/remotes/" then strDropChars ref 13
  else if strStartsWith ref "refs/tags/" then strDropChars ref 10
  else ref

/-- `currentBranch` (currentBranch.js lines 12-37): resolve `HEAD` with
`depth: 2`; return the resolved name as-is when `fullname` is set, else
abbreviated. -/
def currentBranch (readRef : String → Option String) (fullname : Bool) :
    Except GErr String :=
  match resolveRef readRef 2 "HEAD" with
  | .error e => .error e
  | .ok ref => if fullname then .ok ref else .ok (abbrevRef ref)

/-- C9: When HEAD symbolically points at `refs/heads/main`, `currentBranch`
with `fullname: true` returns the full ref name `refs/heads/main`, and with
`fullname: false` the abbreviated name `main`. -/
theorem currentBranch_fullname_abbrev (readRef : String → Option String)
    (hhead : readRef "HEAD" = some "ref: refs/heads/main") :
    currentBranch readRef true = .ok "refs/heads/main"
    ∧ currentBranch readRef false = .ok "main" := by
  have h2 : resolveRef readRef 2 "HEAD" = .ok "refs/heads/main" := by
    simp only [resolveRef, hhead]
    rw [if_neg (by decide), if_neg (by decide), if_pos (by decide)]
    rfl
  constructor
  · simp [currentBranch, h2]
  · simp [currentBranch, h2]
    rfl

/-- Witness for C9: a concrete ref store whose HEAD is
`ref: refs/heads/main`. -/
theorem currentBranch_fullname_abbrev_witness :
    currentBranch
        (fun s => if s = "HEAD" then some "ref: refs/heads/main" else none)
        true = .ok "refs/heads/main"
    ∧ currentBranch
        (fun s => if s = "HEAD" then some "ref: refs/heads/main" else none)
        false = .ok "main" :=
  currentBranch_fullname_abbrev
    (fun s => if s = "HEAD" then some "ref: refs/heads/main" else none)
    (by decide)

end Checkout
